import Mathlib

set_option maxHeartbeats 1000000
set_option linter.unusedVariables false

/-
Shallow embedding of src/opencog-integration/src/main/python/opencog_bridge.py.

The bridge is a CLI dispatcher in which every operation has two branches
selected by the process-wide flag opencog_available: a mock branch (returning
deterministic placeholder data) and a real branch that talks to the external
OpenCog library.  The external library (atom handles, atom string rendering,
attention values STI, truth values, Python str()) is an opaque collaborator:
it is represented here by an explicit atom-store model plus function
parameters (hFn for str(atom.h), reprFn for str(atom), stiFn for atom.asti,
tvFn for atom.tv.mean, pyStr for the Python str() builtin on JSON values),
which theorems quantify over.  JSON values are modelled by JVal with rational
numbers standing for Python floats and ints.
-/

/-- Kind of a JSON value: string, number, array or object. -/
inductive JKind
  | kstr
  | knum
  | karr
  | kobj
deriving DecidableEq

/-- JSON-representable values, as produced and consumed by the bridge. -/
inductive JVal
  | str (s : String)
  | num (q : ℚ)
  | arr (elems : List JVal)
  | obj (fields : List (String × JVal))

/-- Kind of a JSON value. -/
def JVal.kind : JVal → JKind
  | .str _ => .kstr
  | .num _ => .knum
  | .arr _ => .karr
  | .obj _ => .kobj

/-- Key list of a JSON object, in construction order (Python dicts keep
insertion order); none for non-objects. -/
def jkeys : JVal → Option (List String)
  | .obj fs => some (fs.map Prod.fst)
  | _ => none

/-- Kinds of the field values of a JSON object, in construction order. -/
def objKindList : JVal → Option (List JKind)
  | .obj fs => some (fs.map (fun kv => kv.2.kind))
  | _ => none

/-- Field access on a JSON object. -/
def getField : JVal → String → Option JVal
  | .obj fs, k => fs.lookup k
  | _, _ => none

/-- Numeric field access. -/
def getNum (v : JVal) (k : String) : Option ℚ :=
  match getField v k with
  | some (.num q) => some q
  | _ => none

/-- Length of an array-valued field. -/
def getArrLen (v : JVal) (k : String) : Option Nat :=
  match getField v k with
  | some (.arr l) => some l.length
  | _ => none

/-- Atoms of the external knowledge store, restricted to the four atom types
the bridge constructs: ConceptNode, PredicateNode, ListLink (always binary in
this code) and EvaluationLink. -/
inductive AtomT
  | concept (name : String)
  | predicate (name : String)
  | listLink (a b : AtomT)
  | evalLink (pred target : AtomT)
deriving DecidableEq

/-- The AtomSpace contents: the list of stored atoms, in insertion order. -/
abbrev AtomSpace := List AtomT

/-- Direct children (the outgoing set) of an atom. -/
def children : AtomT → List AtomT
  | .concept _ => []
  | .predicate _ => []
  | .listLink a b => [a, b]
  | .evalLink p t => [p, t]

/-- An atom together with all of its descendants, children first (adding a
link to the store also adds its outgoing set). -/
def subAtoms : AtomT → List AtomT
  | .concept n => [.concept n]
  | .predicate n => [.predicate n]
  | .listLink a b => subAtoms a ++ subAtoms b ++ [.listLink a b]
  | .evalLink p t => subAtoms p ++ subAtoms t ++ [.evalLink p t]

/-- Insert one atom if absent (stores are sets; insertion keeps order). -/
def insertAtom (sp : AtomSpace) (a : AtomT) : AtomSpace :=
  if a ∈ sp then sp else sp ++ [a]

/-- Models atomspace.add_atom: adds the atom and its descendants. -/
def addAtom (sp : AtomSpace) (a : AtomT) : AtomSpace :=
  (subAtoms a).foldl insertAtom sp

/-- Models atomspace.get_incoming: all stored links whose outgoing set
directly contains the given atom. -/
def getIncoming (sp : AtomSpace) (a : AtomT) : List AtomT :=
  sp.filter (fun l => a ∈ children l)

/-- Character-list version of the Python substring test needle in haystack:
true when pat occurs contiguously in hay. -/
def leadsWith : List Char → List Char → Bool
  | [], _ => true
  | _ :: _, [] => false
  | p :: ps, h :: hs => p == h && leadsWith ps hs

/-- True when pat occurs contiguously inside hay. -/
def containsSub (hay pat : List Char) : Bool :=
  leadsWith pat hay ||
    match hay with
    | [] => false
    | _ :: t => containsSub t pat

/-- Per-character lower casing of a string, as a character list. -/
def lowerChars (s : String) : List Char := s.data.map Char.toLower

/-- Models the Python test pat.lower() in text.lower(). -/
def containsCI (text pat : String) : Bool :=
  containsSub (lowerChars text) (lowerChars pat)

/-- True exactly on evaluation links (the association atoms). -/
def isEvalLink : AtomT → Bool
  | .evalLink _ _ => true
  | _ => false

/-- A concrete stand-in for the external str(atom.h) handle rendering, used
to instantiate witnesses (theorems quantify over the rendering function). -/
def atomKey : AtomT → String
  | .concept n => "C[" ++ n ++ "]"
  | .predicate n => "P[" ++ n ++ "]"
  | .listLink a b => "L[" ++ atomKey a ++ "," ++ atomKey b ++ "]"
  | .evalLink p t => "E[" ++ atomKey p ++ "," ++ atomKey t ++ "]"

/-- A concrete stand-in for the external str(atom) rendering, used to
instantiate witnesses. -/
def atomRepr : AtomT → String
  | .concept n => "(ConceptNode " ++ n ++ ")"
  | .predicate n => "(PredicateNode " ++ n ++ ")"
  | .listLink a b => "(ListLink " ++ atomRepr a ++ " " ++ atomRepr b ++ ")"
  | .evalLink p t => "(EvaluationLink " ++ atomRepr p ++ " " ++ atomRepr t ++ ")"

/-- Outcome of the try block of initialize_opencog: the OpenCog imports and
AtomSpace construction either succeed, fail with an ImportError, or fail with
some other exception.  The external library decides which; the bridge only
reacts to it. -/
inductive InitOutcome
  | success
  | importError (msg : String)
  | initError (msg : String)
deriving DecidableEq

/-- Models initialize_opencog: on success opencog_available is set to True;
on ImportError or any other exception the handler sets opencog_available to
False and returns normally.  Totality of this function reflects that both
handlers swallow the exception: acquisition never raises and never exits. -/
def init_opencog : InitOutcome → Bool
  | .success => true
  | .importError _ => false
  | .initError _ => false

/-- Models initialize_atomspace (the avail flag is opencog_available). -/
def init_atomspace (avail : Bool) : String :=
  if !avail then "mock_atomspace_id" else "atomspace_initialized"

/-- Models create_concept_node; returns the reference string and the updated
store (hFn models the external str(node.h)). -/
def create_concept_node (avail : Bool) (hFn : AtomT → String) (sp : AtomSpace)
    (concept : String) : String × AtomSpace :=
  if !avail then ("mock_concept_" ++ concept, sp)
  else
    let node := AtomT.concept concept
    (hFn node, addAtom sp node)

/-- Models create_predicate_node. -/
def create_predicate_node (avail : Bool) (hFn : AtomT → String) (sp : AtomSpace)
    (predicate : String) : String × AtomSpace :=
  if !avail then ("mock_predicate_" ++ predicate, sp)
  else
    let node := AtomT.predicate predicate
    (hFn node, addAtom sp node)

/-- The association built for one property of add_transaction_entity:
EvaluationLink(PredicateNode("has_" + key), ListLink(entity_node,
ConceptNode(str(value)))), with pyStr modelling the Python str() builtin. -/
def propLink (entity_id : String) (pyStr : JVal → String) (kv : String × JVal) : AtomT :=
  AtomT.evalLink (AtomT.predicate ("has_" ++ kv.1))
    (AtomT.listLink (AtomT.concept ("entity_" ++ entity_id)) (AtomT.concept (pyStr kv.2)))

/-- Models add_transaction_entity: adds ConceptNode("entity_" + id), then one
evaluation link per property, and returns str(entity_node.h). -/
def add_transaction_entity (avail : Bool) (hFn : AtomT → String) (pyStr : JVal → String)
    (sp : AtomSpace) (entity_id : String) (properties : List (String × JVal)) :
    String × AtomSpace :=
  if !avail then ("mock_entity_" ++ entity_id, sp)
  else
    let entity_node := AtomT.concept ("entity_" ++ entity_id)
    let sp1 := addAtom sp entity_node
    let sp2 := properties.foldl (fun s kv => addAtom s (propLink entity_id pyStr kv)) sp1
    (hFn entity_node, sp2)

/-- The truth value written onto the relationship link: TruthValue(strength,
0.9).  The bridge never reads it back (cognitive_score reads node truth
values through the external tvFn), so it is recorded separately from the
store. -/
def relationship_tv (strength : ℚ) : ℚ × ℚ := (strength, 9/10)

/-- Models create_relationship: builds EvaluationLink(PredicateNode(pred),
ListLink(ConceptNode(from), ConceptNode(to))) over the RAW entity ids (no
entity underscore prefix), adds it, and returns str(eval_link.h). -/
def create_relationship (avail : Bool) (hFn : AtomT → String) (sp : AtomSpace)
    (predicate from_entity to_entity : String) (strength : ℚ) : String × AtomSpace :=
  if !avail then
    ("mock_relationship_" ++ predicate ++ "_" ++ from_entity ++ "_" ++ to_entity, sp)
  else
    let eval_link := AtomT.evalLink (AtomT.predicate predicate)
      (AtomT.listLink (AtomT.concept from_entity) (AtomT.concept to_entity))
    (hFn eval_link, addAtom sp eval_link)

/-- Models execute_pattern_matching.  Mock branch: one fixed result object
with keys pattern, matches, confidence (and no count key).  Real branch:
collects str(atom.h) of every stored atom whose str(atom).lower() contains
pattern.lower(), returns nothing when no atom matches, otherwise one object
whose matches list is truncated to the first 10 while count reports the full
number of matches. -/
def execute_pattern_matching (avail : Bool) (reprFn hFn : AtomT → String)
    (sp : AtomSpace) (pattern : String) : List JVal :=
  if !avail then
    [JVal.obj [("pattern", .str pattern),
               ("matches", .arr [.str "mock_match_1", .str "mock_match_2"]),
               ("confidence", .num (85/100))]]
  else
    let matching_atoms := (sp.filter (fun a => containsCI (reprFn a) pattern)).map hFn
    if matching_atoms.isEmpty then []
    else
      [JVal.obj [("pattern", .str pattern),
                 ("matches", .arr ((matching_atoms.take 10).map JVal.str)),
                 ("confidence", .num (8/10)),
                 ("count", .num (matching_atoms.length : ℚ))]]

/-- Models run_pln_inference.  Neither branch consults the store: the mock
branch returns steps = min(max_steps, 5); the real branch is a placeholder
returning inferred_from_(query), confidence 0.7, steps = min(max_steps, 3)
and a fixed reasoning_path. -/
def run_pln_inference (avail : Bool) (sp : AtomSpace) (query : String)
    (max_steps : ℚ) : List JVal :=
  if !avail then
    [JVal.obj [("query", .str query),
               ("inference_result", .str "mock_inference_result"),
               ("confidence", .num (75/100)),
               ("steps", .num (min max_steps 5))]]
  else
    [JVal.obj [("query", .str query),
               ("inference_result", .str ("inferred_from_" ++ query)),
               ("confidence", .num (7/10)),
               ("steps", .num (min max_steps 3)),
               ("reasoning_path", .arr [.str "step1", .str "step2", .str "conclusion"])]]

/-- Models detect_anomalies.  Mock branch: one fixed anomaly keyed entity_id.
Real branch: one object keyed atom_id per stored atom whose STI strictly
exceeds the threshold (stiFn models the external atom.asti). -/
def detect_anomalies (avail : Bool) (reprFn hFn : AtomT → String)
    (stiFn : AtomT → ℚ) (sp : AtomSpace) (threshold : ℚ) : List JVal :=
  if !avail then
    [JVal.obj [("entity_id", .str "mock_entity_1"),
               ("anomaly_score", .num (95/100)),
               ("anomaly_type", .str "unusual_transaction_pattern"),
               ("description", .str "Mock anomaly detection result")]]
  else
    (sp.filter (fun a => threshold < stiFn a)).map (fun a =>
      JVal.obj [("atom_id", .str (hFn a)),
                ("anomaly_score", .num (stiFn a)),
                ("anomaly_type", .str "high_attention"),
                ("description", .str ("Atom " ++ reprFn a ++ " has unusually high attention value"))])

/-- Models get_cognitive_insights: looks up ConceptNode("entity_" + id) (note
the prefix), reads attention and truth value when the node is stored, counts
get_incoming for relationship_count, and collects predicate names containing
behavior from incoming evaluation links (only evaluation links expose
get_predicate). -/
def get_cognitive_insights (avail : Bool) (stiFn tvFn : AtomT → ℚ)
    (reprFn : AtomT → String) (sp : AtomSpace) (entity_id : String) : JVal :=
  if !avail then
    JVal.obj [("entity_id", .str entity_id),
              ("behavioral_patterns", .arr [.str "mock_pattern_1", .str "mock_pattern_2"]),
              ("cognitive_score", .num (8/10)),
              ("attention_level", .num (6/10)),
              ("relationship_count", .num 5)]
  else
    let entity_node := AtomT.concept ("entity_" ++ entity_id)
    let attention_level := if entity_node ∈ sp then stiFn entity_node else 0
    let cognitive_score := if entity_node ∈ sp then tvFn entity_node else 0
    let incoming := getIncoming sp entity_node
    let behavioral_patterns := incoming.filterMap (fun l =>
      match l with
      | .evalLink p _ => if containsCI (reprFn p) "behavior" then some (reprFn p) else none
      | _ => none)
    JVal.obj [("entity_id", .str entity_id),
              ("behavioral_patterns", .arr (behavioral_patterns.map JVal.str)),
              ("cognitive_score", .num cognitive_score),
              ("attention_level", .num attention_level),
              ("relationship_count", .num (incoming.length : ℚ))]

/-- Models clear_atomspace: a no-op in mock mode, empties the store in real
mode. -/
def clear_atomspace (avail : Bool) (sp : AtomSpace) : AtomSpace :=
  if !avail then sp else []

/-- Models test_connection. -/
def test_connection : String := "OK"

/-- Models get_opencog_version. -/
def get_opencog_version (avail : Bool) : String :=
  if !avail then "OpenCog not available (mock mode)"
  else "OpenCog 5.0.3 (via Python bridge)"

/-- Models shutdown: the store handle is dropped (set to None) after an
attempted clear. -/
def shutdown (avail : Bool) (sp : AtomSpace) : Option AtomSpace := none

/-- Everything main needs that is decided outside the dispatch itself: the
acquisition outcome, the external rendering and attention functions, the
Python str() builtin, and the store contents. -/
structure Env where
  outcome : InitOutcome
  hFn : AtomT → String
  reprFn : AtomT → String
  stiFn : AtomT → ℚ
  tvFn : AtomT → ℚ
  pyStr : JVal → String
  space : AtomSpace

/-- The decoded JSON parameter object handed to main. -/
abbrev Params := List (String × JVal)

/-- Models parameters[k] where a string is expected: a missing key raises
KeyError; a value of the wrong documented type is modelled as a decode
error. -/
def getStrParam (ps : Params) (k : String) : Except String String :=
  match ps.lookup k with
  | some (.str s) => .ok s
  | some _ => .error ("TypeError: " ++ k)
  | none => .error ("KeyError: " ++ k)

/-- Models parameters[k] where a number is expected. -/
def getNumParam (ps : Params) (k : String) : Except String ℚ :=
  match ps.lookup k with
  | some (.num q) => .ok q
  | some _ => .error ("TypeError: " ++ k)
  | none => .error ("KeyError: " ++ k)

/-- Models parameters[k] where an object (the properties map) is expected. -/
def getObjParam (ps : Params) (k : String) : Except String (List (String × JVal)) :=
  match ps.lookup k with
  | some (.obj fs) => .ok fs
  | some _ => .error ("TypeError: " ++ k)
  | none => .error ("KeyError: " ++ k)

/-- The operation names the dispatcher in main recognises, in source order. -/
def knownOps : List String :=
  ["initialize_atomspace", "create_concept_node", "create_predicate_node",
   "add_transaction_entity", "create_relationship", "execute_pattern_matching",
   "run_pln_inference", "detect_anomalies", "get_cognitive_insights",
   "clear_atomspace", "test_connection", "get_opencog_version", "shutdown"]

/-- Models the if/elif dispatch chain of main: any exception along the way
(unknown name raises ValueError, missing parameter raises KeyError) becomes
an error result; otherwise the value the chosen operation returns. -/
def runFunction (env : Env) (avail : Bool) (function_name : String) (ps : Params) :
    Except String JVal :=
  if function_name = "initialize_atomspace" then
    .ok (.str (init_atomspace avail))
  else if function_name = "create_concept_node" then do
    let c ← getStrParam ps "concept"
    .ok (.str (create_concept_node avail env.hFn env.space c).1)
  else if function_name = "create_predicate_node" then do
    let p ← getStrParam ps "predicate"
    .ok (.str (create_predicate_node avail env.hFn env.space p).1)
  else if function_name = "add_transaction_entity" then do
    let e ← getStrParam ps "entity_id"
    let props ← getObjParam ps "properties"
    .ok (.str (add_transaction_entity avail env.hFn env.pyStr env.space e props).1)
  else if function_name = "create_relationship" then do
    let p ← getStrParam ps "predicate"
    let f ← getStrParam ps "from_entity"
    let t ← getStrParam ps "to_entity"
    let s ← getNumParam ps "strength"
    .ok (.str (create_relationship avail env.hFn env.space p f t s).1)
  else if function_name = "execute_pattern_matching" then do
    let pat ← getStrParam ps "pattern"
    .ok (.arr (execute_pattern_matching avail env.reprFn env.hFn env.space pat))
  else if function_name = "run_pln_inference" then do
    let q ← getStrParam ps "query"
    let ms ← getNumParam ps "max_steps"
    .ok (.arr (run_pln_inference avail env.space q ms))
  else if function_name = "detect_anomalies" then do
    let th ← getNumParam ps "threshold"
    .ok (.arr (detect_anomalies avail env.reprFn env.hFn env.stiFn env.space th))
  else if function_name = "get_cognitive_insights" then do
    let e ← getStrParam ps "entity_id"
    .ok (get_cognitive_insights avail env.stiFn env.tvFn env.reprFn env.space e)
  else if function_name = "clear_atomspace" then
    .ok (.str "cleared")
  else if function_name = "test_connection" then
    .ok (.str test_connection)
  else if function_name = "get_opencog_version" then
    .ok (.str (get_opencog_version avail))
  else if function_name = "shutdown" then
    .ok (.str "shutdown")
  else
    .error ("Unknown function: " ++ function_name)

mutual
/-- Models json.dumps on the result value (escaping elided). -/
def jsonDump : JVal → String
  | .str s => "\"" ++ s ++ "\""
  | .num q => toString q
  | .arr l => "[" ++ jsonDumpList l ++ "]"
  | .obj fs => "\x7b" ++ jsonDumpFields fs ++ "\x7d"

/-- Comma-joined rendering of array elements. -/
def jsonDumpList : List JVal → String
  | [] => ""
  | [v] => jsonDump v
  | v :: rest => jsonDump v ++ ", " ++ jsonDumpList rest

/-- Comma-joined rendering of object fields. -/
def jsonDumpFields : List (String × JVal) → String
  | [] => ""
  | [(k, v)] => "\"" ++ k ++ "\": " ++ jsonDump v
  | (k, v) :: rest => "\"" ++ k ++ "\": " ++ jsonDump v ++ ", " ++ jsonDumpFields rest
end

/-- Models the print in main: dict and list results go through json.dumps,
everything else through str. -/
def renderResult : JVal → String
  | .str s => s
  | v => jsonDump v

/-- Models one run of main past argument parsing: initialize, dispatch, and
either print one line and exit 0, or print nothing to standard output and
exit 1 (the except handler logs to the error channel only). -/
def mainRun (env : Env) (function_name : String) (ps : Params) : Nat × List String :=
  let avail := init_opencog env.outcome
  match runFunction env avail function_name ps with
  | .ok r => (0, [renderResult r])
  | .error _ => (1, [])

/-- Modelled from the spec: field kinds of the documented pattern-query
result objects, in order - pattern (string), matches (array of up to 10
ids), confidence (number), count (number). -/
def specShape_patternQuery : List JKind := [.kstr, .karr, .knum, .knum]

/-- Modelled from the spec: field kinds of the documented inference result
objects - query (string), result (string), confidence (number), steps
(number). -/
def specShape_inference : List JKind := [.kstr, .kstr, .knum, .knum]

/-- Modelled from the spec: field kinds of the documented anomaly-scan
result objects - id (string), score (number), type (string), description
(string). -/
def specShape_anomaly : List JKind := [.kstr, .knum, .kstr, .kstr]

/-- Modelled from the spec: field kinds of the documented cognitive-insights
result - entity_id (string), behavioral_patterns (sequence), cognitive_score
(number), attention_level (number), relationship_count (number). -/
def specShape_insights : List JKind := [.kstr, .karr, .knum, .knum, .knum]

/-- Number of stored atoms whose string form contains the pattern
case-insensitively (the true match count of execute_pattern_matching). -/
def trueCount (reprFn : AtomT → String) (sp : AtomSpace) (pattern : String) : Nat :=
  (sp.filter (fun a => containsCI (reprFn a) pattern)).length

/-- A concrete stand-in for the Python str() builtin on JSON values, used
only to instantiate witnesses. -/
def pyStr0 : JVal → String
  | .str s => s
  | .num q => toString q.num
  | _ => "value"

/-- A concrete environment for witnesses: acquisition failed with an
ImportError, so the process runs in mock mode over an empty store. -/
def env0 : Env :=
  { outcome := .importError "No module named opencog"
    hFn := atomKey
    reprFn := atomRepr
    stiFn := fun _ => 0
    tvFn := fun _ => 0
    pyStr := pyStr0
    space := [] }

/-- C10: in present mode run_pln_inference ignores the store entirely and
returns exactly one result object with inference_result equal to
inferred_from_ followed by the query, confidence 0.7, and steps equal to
min(max_steps, 3). -/
theorem C10_present_inference (sp sp2 : AtomSpace) (q : String) (ms : ℚ) :
    run_pln_inference true sp q ms =
      [JVal.obj [("query", JVal.str q),
                 ("inference_result", JVal.str ("inferred_from_" ++ q)),
                 ("confidence", JVal.num (7/10)),
                 ("steps", JVal.num (min ms 3)),
                 ("reasoning_path", JVal.arr [JVal.str "step1", JVal.str "step2",
                                              JVal.str "conclusion"])]]
    ∧ run_pln_inference true sp q ms = run_pln_inference true sp2 q ms :=
  ⟨rfl, rfl⟩

/-- C10 witness: the present-mode inference result instantiated at the empty
store, query q and max_steps 1. -/
theorem C10_present_inference_witness :
    run_pln_inference true [] "q" 1 =
      [JVal.obj [("query", JVal.str "q"),
                 ("inference_result", JVal.str ("inferred_from_" ++ "q")),
                 ("confidence", JVal.num (7/10)),
                 ("steps", JVal.num (min (1 : ℚ) 3)),
                 ("reasoning_path", JVal.arr [JVal.str "step1", JVal.str "step2",
                                              JVal.str "conclusion"])]]
    ∧ run_pln_inference true [] "q" 1 = run_pln_inference true [AtomT.concept "a"] "q" 1 :=
  C10_present_inference [] [AtomT.concept "a"] "q" 1

/-- C5: in either mode, the steps field reported by run_pln_inference is at
most max_steps (the mock branch reports min(max_steps, 5), the real branch
min(max_steps, 3)). -/
theorem C5_steps_bound (avail : Bool) (sp : AtomSpace) (q : String) (ms : ℚ) :
    ∀ r ∈ run_pln_inference avail sp q ms,
      ∃ s, getNum r "steps" = some s ∧ s ≤ ms := by
  intro r hr
  cases avail with
  | false =>
    simp only [run_pln_inference] at hr
    rw [List.mem_singleton.mp hr]
    exact ⟨min ms 5, rfl, min_le_left _ _⟩
  | true =>
    simp only [run_pln_inference] at hr
    rw [List.mem_singleton.mp hr]
    exact ⟨min ms 3, rfl, min_le_left _ _⟩

/-- C5 witness: the mock-mode inference result for query x with max_steps 1
reports steps at most 1. -/
theorem C5_steps_bound_witness :
    ∃ s, getNum (JVal.obj [("query", JVal.str "x"),
                           ("inference_result", JVal.str "mock_inference_result"),
                           ("confidence", JVal.num (75/100)),
                           ("steps", JVal.num (min (1 : ℚ) 5))]) "steps" = some s
      ∧ s ≤ (1 : ℚ) :=
  C5_steps_bound false [] "x" 1 _ (by simp [run_pln_inference])

/-- C2 as stated is false: the documented pattern-query result shape has
four fields (pattern, matches, confidence, count), but the mock branch of
execute_pattern_matching returns an object with only three fields - the
count key is missing. -/
theorem C2_counterexample :
    (execute_pattern_matching false atomRepr atomKey [] "fraud").map objKindList ≠
      [some specShape_patternQuery] := by
  decide

/-- C2 amended: for every operation, when mode is absent, calling it never
raises (all mock branches below are total functions of their inputs) and
returns a deterministic value; that value matches the documented output
shape for every operation except pattern-query, whose mock result omits the
documented count field. -/
theorem C2_mock_total_shapes (reprFn hFn : AtomT → String) (stiFn tvFn : AtomT → ℚ)
    (pyStr : JVal → String) (sp : AtomSpace) (c p eid pred fe te q pat : String)
    (props : List (String × JVal)) (ms th s : ℚ) :
    init_atomspace false = "mock_atomspace_id"
    ∧ (create_concept_node false hFn sp c).1 = "mock_concept_" ++ c
    ∧ (create_predicate_node false hFn sp p).1 = "mock_predicate_" ++ p
    ∧ (add_transaction_entity false hFn pyStr sp eid props).1 = "mock_entity_" ++ eid
    ∧ (create_relationship false hFn sp pred fe te s).1 =
        "mock_relationship_" ++ pred ++ "_" ++ fe ++ "_" ++ te
    ∧ (run_pln_inference false sp q ms).map objKindList = [some specShape_inference]
    ∧ (detect_anomalies false reprFn hFn stiFn sp th).map objKindList =
        [some specShape_anomaly]
    ∧ objKindList (get_cognitive_insights false stiFn tvFn reprFn sp eid) =
        some specShape_insights
    ∧ (execute_pattern_matching false reprFn hFn sp pat).map objKindList =
        [some [.kstr, .karr, .knum]]
    ∧ [JKind.kstr, .karr, .knum] ≠ specShape_patternQuery
    ∧ clear_atomspace false sp = sp
    ∧ get_opencog_version false = "OpenCog not available (mock mode)" :=
  ⟨rfl, rfl, rfl, rfl, rfl, rfl, rfl, rfl, rfl, by decide, rfl, rfl⟩

/-- C2 amended witness: the amended shape statement instantiated at concrete
mock-mode inputs over the empty store. -/
theorem C2_mock_total_shapes_witness :
    init_atomspace false = "mock_atomspace_id"
    ∧ (create_concept_node false atomKey [] "c").1 = "mock_concept_" ++ "c"
    ∧ (create_predicate_node false atomKey [] "p").1 = "mock_predicate_" ++ "p"
    ∧ (add_transaction_entity false atomKey pyStr0 [] "e" []).1 = "mock_entity_" ++ "e"
    ∧ (create_relationship false atomKey [] "pays" "A" "B" (1/2)).1 =
        "mock_relationship_" ++ "pays" ++ "_" ++ "A" ++ "_" ++ "B"
    ∧ (run_pln_inference false [] "q" 1).map objKindList = [some specShape_inference]
    ∧ (detect_anomalies false atomRepr atomKey (fun _ => 0) [] 1).map objKindList =
        [some specShape_anomaly]
    ∧ objKindList (get_cognitive_insights false (fun _ => 0) (fun _ => 0) atomRepr [] "e") =
        some specShape_insights
    ∧ (execute_pattern_matching false atomRepr atomKey [] "x").map objKindList =
        [some [.kstr, .karr, .knum]]
    ∧ [JKind.kstr, .karr, .knum] ≠ specShape_patternQuery
    ∧ clear_atomspace false [] = []
    ∧ get_opencog_version false = "OpenCog not available (mock mode)" :=
  C2_mock_total_shapes atomRepr atomKey (fun _ => 0) (fun _ => 0) pyStr0 []
    "c" "p" "e" "pays" "A" "B" "q" "x" [] 1 1 (1/2)

/-- C1 as stated is false: for pattern matching on a store holding one
matching atom, the real branch returns a result object with keys pattern,
matches, confidence, count while the mock branch returns keys pattern,
matches, confidence only, so the two modes differ in JSON shape. -/
theorem C1_counterexample :
    (execute_pattern_matching false atomRepr atomKey [AtomT.concept "abc"] "AB").map jkeys ≠
      (execute_pattern_matching true atomRepr atomKey [AtomT.concept "abc"] "AB").map jkeys := by
  decide

/-- C1 amended: mock and real branches agree in JSON shape for
get_cognitive_insights (same keys, same kind of value per key), but NOT for
the three sequence-returning operations: the mock pattern-matching result
lacks the count key, the mock inference result lacks the reasoning_path key,
and the mock anomaly result has entity_id where the real branch has atom_id,
so callers can distinguish the modes by result shape there. -/
theorem C1_mode_shapes (hFn reprFn : AtomT → String) (stiFn tvFn : AtomT → ℚ)
    (sp : AtomSpace) (eid q pat : String) (ms th : ℚ) :
    objKindList (get_cognitive_insights false stiFn tvFn reprFn sp eid) =
      objKindList (get_cognitive_insights true stiFn tvFn reprFn sp eid)
    ∧ jkeys (get_cognitive_insights false stiFn tvFn reprFn sp eid) =
        jkeys (get_cognitive_insights true stiFn tvFn reprFn sp eid)
    ∧ (execute_pattern_matching false reprFn hFn sp pat).map jkeys =
        [some ["pattern", "matches", "confidence"]]
    ∧ (∀ r ∈ execute_pattern_matching true reprFn hFn sp pat,
        jkeys r = some ["pattern", "matches", "confidence", "count"])
    ∧ (run_pln_inference false sp q ms).map jkeys =
        [some ["query", "inference_result", "confidence", "steps"]]
    ∧ (run_pln_inference true sp q ms).map jkeys =
        [some ["query", "inference_result", "confidence", "steps", "reasoning_path"]]
    ∧ (detect_anomalies false reprFn hFn stiFn sp th).map jkeys =
        [some ["entity_id", "anomaly_score", "anomaly_type", "description"]]
    ∧ (∀ r ∈ detect_anomalies true reprFn hFn stiFn sp th,
        jkeys r = some ["atom_id", "anomaly_score", "anomaly_type", "description"]) := by
  refine ⟨rfl, rfl, rfl, ?_, rfl, rfl, rfl, ?_⟩
  · intro r hr
    simp only [execute_pattern_matching] at hr
    by_cases hm :
        (((sp.filter (fun a => containsCI (reprFn a) pat)).map hFn)).isEmpty = true
    · rw [if_pos hm] at hr
      exact absurd hr (List.not_mem_nil r)
    · rw [if_neg hm] at hr
      rw [List.mem_singleton.mp hr]
      rfl
  · intro r hr
    simp only [detect_anomalies] at hr
    obtain ⟨a, _, ha⟩ := List.mem_map.mp hr
    rw [← ha]
    rfl

/-- C1 amended witness: on a store holding the single atom ConceptNode abc,
the real pattern-matching result for pattern AB carries exactly the keys
pattern, matches, confidence, count. -/
theorem C1_mode_shapes_witness :
    jkeys (JVal.obj [("pattern", JVal.str "AB"),
                     ("matches", JVal.arr [JVal.str (atomKey (AtomT.concept "abc"))]),
                     ("confidence", JVal.num (8/10)),
                     ("count", JVal.num ((1 : Nat) : ℚ))]) =
      some ["pattern", "matches", "confidence", "count"] :=
  (C1_mode_shapes atomKey atomRepr (fun _ => 0) (fun _ => 0) [AtomT.concept "abc"]
      "e" "q" "AB" 0 0).2.2.2.1 _ (List.mem_singleton.mpr rfl)

/-- C7: invoking the bridge with an operation name outside the dispatch
table always exits with status 1 and prints nothing to standard output (the
ValueError is caught by the top-level handler, which logs to the error
channel and calls sys.exit(1) before the print is reached). -/
theorem C7_unknown_op (env : Env) (name : String) (ps : Params)
    (h : name ∉ knownOps) : mainRun env name ps = (1, []) := by
  simp only [knownOps, List.mem_cons, List.not_mem_nil, or_false, not_or] at h
  obtain ⟨h1, h2, h3, h4, h5, h6, h7, h8, h9, h10, h11, h12, h13⟩ := h
  simp [mainRun, runFunction, h1, h2, h3, h4, h5, h6, h7, h8, h9, h10, h11, h12, h13]

/-- C7 witness: the concrete unknown operation name not_a_real_op yields
exit status 1 and an empty standard output. -/
theorem C7_unknown_op_witness :
    "not_a_real_op" ∉ knownOps ∧ mainRun env0 "not_a_real_op" [] = (1, []) :=
  ⟨by decide, C7_unknown_op env0 "not_a_real_op" [] (by decide)⟩

/-- Filtering with a stronger predicate yields a sublist of filtering with a
weaker one. -/
theorem filter_sublist_of_imp {α : Type} (l : List α) (p q : α → Bool)
    (h : ∀ a, p a = true → q a = true) : (l.filter p).Sublist (l.filter q) :=
  List.monotone_filter_right l h

/-- C8: the anomaly report is antitone in the threshold: in either mode,
the list reported for a higher threshold is a sublist (hence also no longer)
of the list reported for a lower threshold; the mock branch ignores the
threshold altogether. -/
theorem C8_threshold_antitone (avail : Bool) (reprFn hFn : AtomT → String)
    (stiFn : AtomT → ℚ) (sp : AtomSpace) (t1 t2 : ℚ) (h : t1 ≤ t2) :
    (detect_anomalies avail reprFn hFn stiFn sp t2).Sublist
      (detect_anomalies avail reprFn hFn stiFn sp t1)
    ∧ (detect_anomalies avail reprFn hFn stiFn sp t2).length ≤
        (detect_anomalies avail reprFn hFn stiFn sp t1).length := by
  have hsub : (detect_anomalies avail reprFn hFn stiFn sp t2).Sublist
      (detect_anomalies avail reprFn hFn stiFn sp t1) := by
    cases avail with
    | false => exact List.Sublist.refl _
    | true =>
      simp only [detect_anomalies]
      refine List.Sublist.map _ (filter_sublist_of_imp sp _ _ ?_)
      intro a ha
      exact decide_eq_true (lt_of_le_of_lt h (of_decide_eq_true ha))
  exact ⟨hsub, hsub.length_le⟩

/-- C8 witness: over a one-atom store with STI one half, the anomalies at
threshold 1 form a sublist of (and are no more numerous than) the anomalies
at threshold 0. -/
theorem C8_threshold_antitone_witness :
    (detect_anomalies true atomRepr atomKey (fun _ => 1/2) [AtomT.concept "a"] 1).Sublist
      (detect_anomalies true atomRepr atomKey (fun _ => 1/2) [AtomT.concept "a"] 0)
    ∧ (detect_anomalies true atomRepr atomKey (fun _ => 1/2) [AtomT.concept "a"] 1).length ≤
        (detect_anomalies true atomRepr atomKey (fun _ => 1/2) [AtomT.concept "a"] 0).length :=
  C8_threshold_antitone true atomRepr atomKey (fun _ => 1/2) [AtomT.concept "a"] 0 1
    (by norm_num)

/-- C9: when acquisition fails for any reason (ImportError or any other
exception), init_opencog returns normally with the flag False - it never
raises and never terminates the process, being a total function - and every
subsequent operation invoked with that flag takes its mock branch. -/
theorem C9_failure_demotes (o : InitOutcome) (ho : o ≠ .success)
    (hFn reprFn : AtomT → String) (stiFn tvFn : AtomT → ℚ) (pyStr : JVal → String)
    (sp : AtomSpace) (c pr eid pred fe te q pat : String)
    (props : List (String × JVal)) (s ms th : ℚ) :
    init_opencog o = false
    ∧ init_atomspace (init_opencog o) = "mock_atomspace_id"
    ∧ create_concept_node (init_opencog o) hFn sp c = ("mock_concept_" ++ c, sp)
    ∧ create_predicate_node (init_opencog o) hFn sp pr = ("mock_predicate_" ++ pr, sp)
    ∧ add_transaction_entity (init_opencog o) hFn pyStr sp eid props =
        ("mock_entity_" ++ eid, sp)
    ∧ create_relationship (init_opencog o) hFn sp pred fe te s =
        ("mock_relationship_" ++ pred ++ "_" ++ fe ++ "_" ++ te, sp)
    ∧ execute_pattern_matching (init_opencog o) reprFn hFn sp pat =
        execute_pattern_matching false reprFn hFn sp pat
    ∧ run_pln_inference (init_opencog o) sp q ms = run_pln_inference false sp q ms
    ∧ detect_anomalies (init_opencog o) reprFn hFn stiFn sp th =
        detect_anomalies false reprFn hFn stiFn sp th
    ∧ get_cognitive_insights (init_opencog o) stiFn tvFn reprFn sp eid =
        get_cognitive_insights false stiFn tvFn reprFn sp eid
    ∧ clear_atomspace (init_opencog o) sp = sp
    ∧ get_opencog_version (init_opencog o) = "OpenCog not available (mock mode)" := by
  have hf : init_opencog o = false := by
    cases o with
    | success => exact absurd rfl ho
    | importError m => rfl
    | initError m => rfl
  rw [hf]
  exact ⟨rfl, rfl, rfl, rfl, rfl, rfl, rfl, rfl, rfl, rfl, rfl, rfl⟩

/-- C9 witness: instantiated at a concrete ImportError outcome, acquisition
reports mock mode and the operations all take their mock branches. -/
theorem C9_failure_demotes_witness :
    init_opencog (.importError "No module named opencog") = false
    ∧ init_atomspace (init_opencog (.importError "No module named opencog")) =
        "mock_atomspace_id"
    ∧ create_concept_node (init_opencog (.importError "No module named opencog"))
        atomKey [] "c" = ("mock_concept_" ++ "c", [])
    ∧ create_predicate_node (init_opencog (.importError "No module named opencog"))
        atomKey [] "p" = ("mock_predicate_" ++ "p", [])
    ∧ add_transaction_entity (init_opencog (.importError "No module named opencog"))
        atomKey pyStr0 [] "e" [] = ("mock_entity_" ++ "e", [])
    ∧ create_relationship (init_opencog (.importError "No module named opencog"))
        atomKey [] "pays" "A" "B" (1/2) =
        ("mock_relationship_" ++ "pays" ++ "_" ++ "A" ++ "_" ++ "B", [])
    ∧ execute_pattern_matching (init_opencog (.importError "No module named opencog"))
        atomRepr atomKey [] "x" = execute_pattern_matching false atomRepr atomKey [] "x"
    ∧ run_pln_inference (init_opencog (.importError "No module named opencog")) [] "q" 1 =
        run_pln_inference false [] "q" 1
    ∧ detect_anomalies (init_opencog (.importError "No module named opencog"))
        atomRepr atomKey (fun _ => 0) [] 1 =
        detect_anomalies false atomRepr atomKey (fun _ => 0) [] 1
    ∧ get_cognitive_insights (init_opencog (.importError "No module named opencog"))
        (fun _ => 0) (fun _ => 0) atomRepr [] "e" =
        get_cognitive_insights false (fun _ => 0) (fun _ => 0) atomRepr [] "e"
    ∧ clear_atomspace (init_opencog (.importError "No module named opencog")) [] = []
    ∧ get_opencog_version (init_opencog (.importError "No module named opencog")) =
        "OpenCog not available (mock mode)" :=
  C9_failure_demotes (.importError "No module named opencog") (by decide)
    atomKey atomRepr (fun _ => 0) (fun _ => 0) pyStr0 [] "c" "p" "e" "pays" "A" "B"
    "q" "x" [] (1/2) 1 1

/-- C4: in real mode, every result object of execute_pattern_matching has a
matches list of length min(true_count, 10) and a count field equal to
true_count; when at least one atom matches the result is exactly one such
object, and when none matches the result sequence is empty. -/
theorem C4_pattern_counts (reprFn hFn : AtomT → String) (sp : AtomSpace)
    (pattern : String) :
    (∀ r ∈ execute_pattern_matching true reprFn hFn sp pattern,
        getArrLen r "matches" = some (min (trueCount reprFn sp pattern) 10)
        ∧ getNum r "count" = some (trueCount reprFn sp pattern : ℚ))
    ∧ (0 < trueCount reprFn sp pattern →
        (execute_pattern_matching true reprFn hFn sp pattern).length = 1)
    ∧ (trueCount reprFn sp pattern = 0 →
        execute_pattern_matching true reprFn hFn sp pattern = []) := by
  have hrw : execute_pattern_matching true reprFn hFn sp pattern =
      (if ((sp.filter (fun a => containsCI (reprFn a) pattern)).map hFn).isEmpty then
        ([] : List JVal)
       else
        [JVal.obj [("pattern", JVal.str pattern),
                   ("matches", JVal.arr
                     ((((sp.filter (fun a => containsCI (reprFn a) pattern)).map hFn).take 10).map JVal.str)),
                   ("confidence", JVal.num (8/10)),
                   ("count", JVal.num
                     ((((sp.filter (fun a => containsCI (reprFn a) pattern)).map hFn).length : Nat) : ℚ))]]) := rfl
  have hlen : ((sp.filter (fun a => containsCI (reprFn a) pattern)).map hFn).length
      = trueCount reprFn sp pattern := by
    rw [List.length_map]; rfl
  by_cases hm : ((sp.filter (fun a => containsCI (reprFn a) pattern)).map hFn).isEmpty = true
  · have hnil : (sp.filter (fun a => containsCI (reprFn a) pattern)).map hFn = [] :=
      List.isEmpty_iff.mp hm
    have htc : trueCount reprFn sp pattern = 0 := by rw [← hlen, hnil]; rfl
    refine ⟨?_, ?_, ?_⟩
    · intro r hr
      rw [hrw, if_pos hm] at hr
      exact absurd hr (List.not_mem_nil r)
    · intro hpos
      exact absurd htc (Nat.pos_iff_ne_zero.mp hpos)
    · intro _
      rw [hrw, if_pos hm]
  · refine ⟨?_, ?_, ?_⟩
    · intro r hr
      rw [hrw, if_neg hm] at hr
      rw [List.mem_singleton.mp hr]
      constructor
      · show some ((((sp.filter (fun a => containsCI (reprFn a) pattern)).map hFn).take 10).map JVal.str).length
            = some (min (trueCount reprFn sp pattern) 10)
        rw [List.length_map, List.length_take, hlen, min_comm]
      · show some ((((sp.filter (fun a => containsCI (reprFn a) pattern)).map hFn).length : Nat) : ℚ)
            = some (trueCount reprFn sp pattern : ℚ)
        rw [hlen]
    · intro _
      rw [hrw, if_neg hm]
      rfl
    · intro h0
      have : ((sp.filter (fun a => containsCI (reprFn a) pattern)).map hFn).isEmpty = true := by
        rw [List.isEmpty_iff, ← List.length_eq_zero, hlen]
        exact h0
      exact absurd this hm

/-- C4 witness: on the one-atom store ConceptNode a with pattern a
(true_count 1), the single result object has a one-element matches list and
count 1, and the result sequence has length 1. -/
theorem C4_pattern_counts_witness :
    (getArrLen (JVal.obj [("pattern", JVal.str "a"),
                          ("matches", JVal.arr [JVal.str (atomKey (AtomT.concept "a"))]),
                          ("confidence", JVal.num (8/10)),
                          ("count", JVal.num ((1 : Nat) : ℚ))]) "matches"
        = some (min (trueCount atomRepr [AtomT.concept "a"] "a") 10)
     ∧ getNum (JVal.obj [("pattern", JVal.str "a"),
                         ("matches", JVal.arr [JVal.str (atomKey (AtomT.concept "a"))]),
                         ("confidence", JVal.num (8/10)),
                         ("count", JVal.num ((1 : Nat) : ℚ))]) "count"
        = some (trueCount atomRepr [AtomT.concept "a"] "a" : ℚ))
    ∧ (execute_pattern_matching true atomRepr atomKey [AtomT.concept "a"] "a").length = 1 :=
  ⟨(C4_pattern_counts atomRepr atomKey [AtomT.concept "a"] "a").1 _
      (List.mem_singleton.mpr rfl),
   (C4_pattern_counts atomRepr atomKey [AtomT.concept "a"] "a").2.1 (by decide)⟩

/-- Membership after a single set-insert. -/
theorem mem_insertAtom {sp : AtomSpace} {x a : AtomT} :
    a ∈ insertAtom sp x ↔ a ∈ sp ∨ a = x := by
  unfold insertAtom
  by_cases h : x ∈ sp
  · rw [if_pos h]
    constructor
    · exact Or.inl
    · rintro (ha | rfl)
      · exact ha
      · exact h
  · rw [if_neg h]
    simp

/-- Membership after folding set-inserts over a list of atoms. -/
theorem mem_foldl_insert (xs : List AtomT) :
    ∀ (sp : AtomSpace) (a : AtomT),
      a ∈ xs.foldl insertAtom sp ↔ a ∈ sp ∨ a ∈ xs := by
  induction xs with
  | nil => intro sp a; simp
  | cons x t ih =>
    intro sp a
    rw [List.foldl_cons, ih, mem_insertAtom, List.mem_cons]
    tauto

/-- Membership after add_atom: the old contents plus the descendants of the
added atom. -/
theorem mem_addAtom {sp : AtomSpace} {x a : AtomT} :
    a ∈ addAtom sp x ↔ a ∈ sp ∨ a ∈ subAtoms x :=
  mem_foldl_insert _ _ _

/-- Inserting an atom the filter rejects leaves the filtered view unchanged. -/
theorem filter_insertAtom_of_neg {sp : AtomSpace} {x : AtomT} (p : AtomT → Bool)
    (hpx : p x = false) : (insertAtom sp x).filter p = sp.filter p := by
  unfold insertAtom
  by_cases h : x ∈ sp
  · rw [if_pos h]
  · rw [if_neg h, List.filter_append]
    simp [List.filter_cons, hpx]

/-- Inserting a fresh atom the filter keeps appends it to the filtered view. -/
theorem filter_insertAtom_of_pos {sp : AtomSpace} {x : AtomT} (p : AtomT → Bool)
    (hpx : p x = true) (hx : x ∉ sp) :
    (insertAtom sp x).filter p = sp.filter p ++ [x] := by
  unfold insertAtom
  rw [if_neg hx, List.filter_append]
  simp [List.filter_cons, hpx]

/-- Folding inserts of atoms the filter rejects leaves the filtered view
unchanged. -/
theorem filter_foldl_insert_of_none (p : AtomT → Bool) (xs : List AtomT) :
    ∀ (sp : AtomSpace), (∀ x ∈ xs, p x = false) →
      (xs.foldl insertAtom sp).filter p = sp.filter p := by
  induction xs with
  | nil => intro sp _; rfl
  | cons x t ih =>
    intro sp h
    rw [List.foldl_cons, ih _ (fun y hy => h y (List.mem_cons_of_mem _ hy)),
      filter_insertAtom_of_neg p (h x (List.mem_cons_self _ _))]

/-- Adding a fresh evaluation link whose descendants are all non-links
appends exactly that link to the evaluation-link view of the store. -/
theorem filter_addAtom_eval (sp : AtomSpace) (p t : AtomT)
    (hsub : ∀ s ∈ subAtoms p ++ subAtoms t, isEvalLink s = false)
    (hfresh : AtomT.evalLink p t ∉ sp) :
    (addAtom sp (.evalLink p t)).filter isEvalLink
      = sp.filter isEvalLink ++ [.evalLink p t] := by
  show ((subAtoms p ++ subAtoms t ++ [AtomT.evalLink p t]).foldl insertAtom sp).filter isEvalLink
    = sp.filter isEvalLink ++ [AtomT.evalLink p t]
  rw [List.foldl_append, List.foldl_cons, List.foldl_nil]
  have h0 : AtomT.evalLink p t ∉ (subAtoms p ++ subAtoms t).foldl insertAtom sp := by
    rw [mem_foldl_insert]
    rintro (hmem | hmem)
    · exact hfresh hmem
    · exact absurd (hsub _ hmem) (by simp [isEvalLink])
  rw [filter_insertAtom_of_pos isEvalLink
      (show isEvalLink (AtomT.evalLink p t) = true from rfl) h0,
    filter_foldl_insert_of_none isEvalLink _ sp hsub]

/-- String concatenation is left-cancellative. -/
theorem str_append_cancel {p a b : String} (h : p ++ a = p ++ b) : a = b := by
  have h2 : p.data ++ a.data = p.data ++ b.data := by
    rw [← String.data_append, ← String.data_append, h]
  have h3 : a.data = b.data := List.append_cancel_left h2
  exact congrArg String.mk h3

/-- Two property links coincide only when their keys coincide. -/
theorem propLink_inj_key {eid : String} {pyStr : JVal → String}
    {kv kv' : String × JVal}
    (h : propLink eid pyStr kv = propLink eid pyStr kv') : kv.1 = kv'.1 := by
  simp only [propLink, AtomT.evalLink.injEq, AtomT.predicate.injEq,
    AtomT.listLink.injEq, AtomT.concept.injEq] at h
  exact str_append_cancel h.1

/-- Distinct property keys give distinct property links. -/
theorem nodup_map_propLink {eid : String} {pyStr : JVal → String}
    {props : List (String × JVal)} (h : (props.map Prod.fst).Nodup) :
    (props.map (propLink eid pyStr)).Nodup := by
  induction props with
  | nil => simp
  | cons kv t ih =>
    rw [List.map_cons, List.nodup_cons] at h ⊢
    refine ⟨?_, ih h.2⟩
    intro hm
    obtain ⟨kv', hkv', he⟩ := List.mem_map.mp hm
    have hk : kv.1 = kv'.1 := (propLink_inj_key he).symm
    exact h.1 (hk ▸ List.mem_map_of_mem Prod.fst hkv')

/-- An atom among the descendants of a property link that is itself a
property link is that very link. -/
theorem propLink_mem_subAtoms {eid : String} {pyStr : JVal → String}
    {kv kv' : String × JVal}
    (h : propLink eid pyStr kv' ∈ subAtoms (propLink eid pyStr kv)) :
    propLink eid pyStr kv' = propLink eid pyStr kv := by
  simp only [propLink, subAtoms, List.cons_append, List.nil_append, List.append_assoc,
    List.mem_cons, List.not_mem_nil, or_false, List.mem_append, List.mem_singleton] at h
  rcases h with h | h | h | h | h
  · exact absurd h (by simp)
  · exact absurd h (by simp)
  · exact absurd h (by simp)
  · exact absurd h (by simp)
  · simp only [propLink]
    exact h

/-- Folding the per-property add_atom calls of add_transaction_entity over
fresh, pairwise-distinct property links appends exactly those links, in
order, to the evaluation-link view of the store. -/
theorem filter_entity_fold (eid : String) (pyStr : JVal → String)
    (props : List (String × JVal)) :
    ∀ (sp : AtomSpace), (props.map (propLink eid pyStr)).Nodup →
      (∀ kv ∈ props, propLink eid pyStr kv ∉ sp) →
      ((props.foldl (fun s kv => addAtom s (propLink eid pyStr kv)) sp).filter isEvalLink)
        = sp.filter isEvalLink ++ props.map (propLink eid pyStr) := by
  induction props with
  | nil => intro sp _ _; simp
  | cons kv t ih =>
    intro sp hnd hfresh
    rw [List.foldl_cons]
    have hsub : ∀ s ∈ subAtoms (AtomT.predicate ("has_" ++ kv.1))
        ++ subAtoms (AtomT.listLink (AtomT.concept ("entity_" ++ eid))
             (AtomT.concept (pyStr kv.2))), isEvalLink s = false := by
      intro s hs
      simp only [subAtoms, List.cons_append, List.nil_append, List.mem_cons,
        List.not_mem_nil, or_false, List.mem_append, List.mem_singleton] at hs
      rcases hs with rfl | rfl | rfl | rfl <;> rfl
    have hstep : (addAtom sp (propLink eid pyStr kv)).filter isEvalLink
        = sp.filter isEvalLink ++ [propLink eid pyStr kv] :=
      filter_addAtom_eval sp _ _ hsub (hfresh kv (List.mem_cons_self _ _))
    have hfresh' : ∀ kv' ∈ t, propLink eid pyStr kv' ∉ addAtom sp (propLink eid pyStr kv) := by
      intro kv' hkv' hmem
      rw [mem_addAtom] at hmem
      rcases hmem with hmem | hmem
      · exact hfresh kv' (List.mem_cons_of_mem _ hkv') hmem
      · have heq : propLink eid pyStr kv' = propLink eid pyStr kv :=
          propLink_mem_subAtoms hmem
        have hndc := (List.nodup_cons.mp (by rw [List.map_cons] at hnd; exact hnd)).1
        exact hndc (heq ▸ List.mem_map_of_mem _ hkv')
    rw [ih _ (List.nodup_cons.mp (by rw [List.map_cons] at hnd; exact hnd)).2 hfresh',
      hstep, List.map_cons, List.append_assoc, List.singleton_append]

/-- C6: in real mode, add_transaction_entity over a fresh store returns the
handle of ConceptNode(entity_(id)) as its entity reference and creates
exactly one evaluation link per property key, each of the form
EvaluationLink(PredicateNode(has_(key)), ListLink(entity node,
ConceptNode(str(value)))), in property order; in particular an empty
properties map creates zero associations. -/
theorem C6_add_entity (hFn : AtomT → String) (pyStr : JVal → String)
    (eid : String) (props : List (String × JVal))
    (hnd : (props.map Prod.fst).Nodup) :
    (add_transaction_entity true hFn pyStr [] eid props).1
        = hFn (AtomT.concept ("entity_" ++ eid))
    ∧ (add_transaction_entity true hFn pyStr [] eid props).2.filter isEvalLink
        = props.map (propLink eid pyStr)
    ∧ ((add_transaction_entity true hFn pyStr [] eid props).2.filter isEvalLink).length
        = props.length := by
  have hinit : addAtom [] (AtomT.concept ("entity_" ++ eid))
      = [AtomT.concept ("entity_" ++ eid)] := rfl
  have hfresh : ∀ kv ∈ props, propLink eid pyStr kv ∉ addAtom [] (AtomT.concept ("entity_" ++ eid)) := by
    intro kv hkv hmem
    rw [hinit, List.mem_singleton] at hmem
    exact absurd hmem (by simp [propLink])
  have hmain : (add_transaction_entity true hFn pyStr [] eid props).2.filter isEvalLink
      = props.map (propLink eid pyStr) := by
    show ((props.foldl (fun s kv => addAtom s (propLink eid pyStr kv))
        (addAtom [] (AtomT.concept ("entity_" ++ eid)))).filter isEvalLink) = _
    rw [filter_entity_fold eid pyStr props _ (nodup_map_propLink hnd) hfresh, hinit]
    rfl
  exact ⟨rfl, hmain, by rw [hmain, List.length_map]⟩

/-- C6 witness: the documented example - properties amount 100 and currency
USD - yields the entity reference for ConceptNode entity_T1 and exactly the
two associations has_amount and has_currency, in order. -/
theorem C6_add_entity_witness :
    (add_transaction_entity true atomKey pyStr0 [] "T1"
        [("amount", JVal.num 100), ("currency", JVal.str "USD")]).1
        = atomKey (AtomT.concept ("entity_" ++ "T1"))
    ∧ (add_transaction_entity true atomKey pyStr0 [] "T1"
        [("amount", JVal.num 100), ("currency", JVal.str "USD")]).2.filter isEvalLink
        = [("amount", JVal.num 100), ("currency", JVal.str "USD")].map (propLink "T1" pyStr0)
    ∧ ((add_transaction_entity true atomKey pyStr0 [] "T1"
        [("amount", JVal.num 100), ("currency", JVal.str "USD")]).2.filter isEvalLink).length
        = ([("amount", JVal.num 100), ("currency", JVal.str "USD")] : List (String × JVal)).length :=
  C6_add_entity atomKey pyStr0 "T1" [("amount", JVal.num 100), ("currency", JVal.str "USD")]
    (by decide)

/-- Store contents after the round-trip first step: real-mode
create_relationship("pays", "A", "B", 0.5) on a fresh store. -/
def c3_space : AtomSpace := (create_relationship true atomKey [] "pays" "A" "B" (1/2)).2

/-- C3: evaluating the code on the round-trip of the claim.  After
create_relationship("pays", "A", "B", 0.5) on a fresh store in real mode,
the created link does point at ConceptNode B (its incoming count is 1), but
get_cognitive_insights("B") looks up ConceptNode entity_B - a node no
relationship ever touches - and therefore reports relationship_count 0,
which is not at least 1.  Only the mock branch, whose relationship_count is
the constant 5, satisfies the claim. -/
theorem C3_roundtrip_eval :
    (getIncoming c3_space (AtomT.concept "B")).length = 1
    ∧ getNum (get_cognitive_insights true (fun _ => 0) (fun _ => 0) atomRepr c3_space "B")
        "relationship_count" = some 0
    ∧ ¬ (1 ≤ (0 : ℚ))
    ∧ getNum (get_cognitive_insights false (fun _ => 0) (fun _ => 0) atomRepr c3_space "B")
        "relationship_count" = some 5 := by
  refine ⟨by decide, by decide, by norm_num, by decide⟩
